import Mathlib

/-
Verification development for the reachy_mini_pomodoro repository.

Shallow embedding of three components and their operations:
  - the Pomodoro timer state machine (reachy_mini_pomodoro/pomodoro_timer.py),
  - the movement/animation engine (reachy_mini_pomodoro/movements.py),
  - the speech-to-motion head wobbler (reachy_mini_pomodoro/voice/head_wobbler.py).

Modelling conventions:
  - wall-clock timestamps (Python time.time(), a float) are rationals;
  - the Python int(...) cast on a float is pyInt (truncation toward zero);
  - the Python float modulo is pyMod;
  - event emission is modelled functionally: each operation returns the list
    of events it would emit to the registered listeners, and the listener
    registry itself is an opaque list carried unchanged in the state;
  - random.choice over the break-activity catalog is modelled by an explicit
    index parameter reduced modulo the catalog length;
  - trigonometric functions and pi appear only inside pose formulas and are
    carried as an abstract Trig record, so every definition stays executable
    and every theorem holds for every interpretation of sin, cos and pi.
-/

set_option linter.unusedVariables false

/-- Python int(q): truncation of a rational toward zero. -/
def pyInt (q : ℚ) : Int := if 0 ≤ q then ⌊q⌋ else ⌈q⌉

/-- Python float modulo x % d for the cases used by the code (d positive). -/
def pyMod (x d : ℚ) : ℚ := x - d * ⌊x / d⌋

namespace Pomodoro

/-- Timer states, from config.py TimerState. -/
inductive TimerState
  | IDLE
  | FOCUS
  | SHORT_BREAK
  | LONG_BREAK
  | PAUSED
  deriving DecidableEq

/-- Configurable settings, from config.py PomodoroSettings. Durations in seconds. -/
structure PomodoroSettings where
  focus_duration : Int := 25 * 60
  short_break_duration : Int := 5 * 60
  long_break_duration : Int := 15 * 60
  pomodoros_until_long_break : Int := 4
  focus_reminder_interval : Int := 5 * 60
  enable_sounds : Bool := true
  enable_movements : Bool := true
  deriving DecidableEq

/-- A suggested break activity, from config.py BreakActivity. -/
structure BreakActivity where
  name : String
  description : String
  duration_seconds : Int
  robot_demo : Bool := false
  deriving DecidableEq

/-- The fixed catalog of break activities, from config.py DEFAULT_BREAK_ACTIVITIES. -/
def DEFAULT_BREAK_ACTIVITIES : List BreakActivity :=
  [ { name := "Deep Breathing",
      description := "Take 5 deep breaths. Inhale for 4 seconds, hold for 4, exhale for 4.",
      duration_seconds := 60, robot_demo := true },
    { name := "Neck Stretches",
      description := "Gently tilt your head left, right, forward, and back.",
      duration_seconds := 30, robot_demo := true },
    { name := "Eye Rest",
      description := "Look at something 20 feet away for 20 seconds (20-20-20 rule).",
      duration_seconds := 20, robot_demo := false },
    { name := "Shoulder Rolls",
      description := "Roll your shoulders forward 5 times, then backward 5 times.",
      duration_seconds := 30, robot_demo := true },
    { name := "Stand & Stretch",
      description := "Stand up, reach for the sky, then touch your toes.",
      duration_seconds := 45, robot_demo := false },
    { name := "Hydration Break",
      description := "Drink a glass of water. Stay hydrated!",
      duration_seconds := 30, robot_demo := false },
    { name := "Quick Walk",
      description := "Take a short walk around your space.",
      duration_seconds := 120, robot_demo := false },
    { name := "Wrist Circles",
      description := "Rotate your wrists clockwise and counter-clockwise.",
      duration_seconds := 30, robot_demo := true } ]

/-- An event emitted by the timer (pomodoro_timer.py TimerEvent). Only the
event type is modelled; the data payload is not needed by any claim. -/
structure TimerEvent where
  event_type : String
  deriving DecidableEq

/-- The timer state machine fields (pomodoro_timer.py PomodoroTimer.__init__).
The listener registry is modelled as an opaque list of tokens, carried along
so that frame claims about it can be stated. -/
structure PomodoroTimer where
  settings : PomodoroSettings
  state : TimerState
  previous_state : TimerState
  time_remaining : Int
  session_start_time : ℚ
  pause_time : ℚ
  pomodoros_in_cycle : Int
  total_pomodoros : Int
  current_break_activity : Option BreakActivity
  last_reminder_time : ℚ
  event_listeners : List String
  deriving DecidableEq

/-- A fresh timer, as built by PomodoroTimer.__init__. -/
def PomodoroTimer.init (settings : PomodoroSettings) : PomodoroTimer :=
  { settings := settings
    state := TimerState.IDLE
    previous_state := TimerState.IDLE
    time_remaining := 0
    session_start_time := 0
    pause_time := 0
    pomodoros_in_cycle := 0
    total_pomodoros := 0
    current_break_activity := none
    last_reminder_time := 0
    event_listeners := [] }

/-- Result of a timer transition: the returned bool, the new timer, and the
events emitted during the call, in emission order. -/
structure TimerRes where
  ok : Bool
  timer : PomodoroTimer
  events : List TimerEvent
  deriving DecidableEq

/-- random.choice(DEFAULT_BREAK_ACTIVITIES), with the random draw supplied as
an index reduced modulo the catalog length. -/
def pickActivity (choice : Nat) : BreakActivity :=
  DEFAULT_BREAK_ACTIVITIES.getD (choice % DEFAULT_BREAK_ACTIVITIES.length)
    { name := "", description := "", duration_seconds := 0, robot_demo := false }

/-- PomodoroTimer.start_focus. -/
def PomodoroTimer.start_focus (t : PomodoroTimer) (now : ℚ) : TimerRes :=
  if t.state = TimerState.IDLE ∨ t.state = TimerState.SHORT_BREAK ∨
      t.state = TimerState.LONG_BREAK then
    { ok := true
      timer := { t with
        state := TimerState.FOCUS
        time_remaining := t.settings.focus_duration
        session_start_time := now
        last_reminder_time := now }
      events := [{ event_type := "focus_started" }] }
  else
    { ok := false, timer := t, events := [] }

/-- PomodoroTimer.start_break. Counters are incremented first, then the break
type is selected on the incremented cycle count. -/
def PomodoroTimer.start_break (t : PomodoroTimer) (force_long : Bool) (now : ℚ)
    (choice : Nat) : TimerRes :=
  if t.state = TimerState.FOCUS then
    let cyc := t.pomodoros_in_cycle + 1
    let tot := t.total_pomodoros + 1
    let t1 :=
      if force_long = true ∨ cyc ≥ t.settings.pomodoros_until_long_break then
        { t with
          state := TimerState.LONG_BREAK
          time_remaining := t.settings.long_break_duration
          pomodoros_in_cycle := 0
          total_pomodoros := tot }
      else
        { t with
          state := TimerState.SHORT_BREAK
          time_remaining := t.settings.short_break_duration
          pomodoros_in_cycle := cyc
          total_pomodoros := tot }
    { ok := true
      timer := { t1 with
        session_start_time := now
        current_break_activity := some (pickActivity choice) }
      events := [{ event_type := "break_started" }] }
  else
    { ok := false, timer := t, events := [] }

/-- PomodoroTimer.pause. -/
def PomodoroTimer.pause (t : PomodoroTimer) (now : ℚ) : TimerRes :=
  if t.state = TimerState.FOCUS ∨ t.state = TimerState.SHORT_BREAK ∨
      t.state = TimerState.LONG_BREAK then
    { ok := true
      timer := { t with
        previous_state := t.state
        pause_time := now
        state := TimerState.PAUSED }
      events := [{ event_type := "timer_paused" }] }
  else
    { ok := false, timer := t, events := [] }

/-- PomodoroTimer.resume. -/
def PomodoroTimer.resume (t : PomodoroTimer) (now : ℚ) : TimerRes :=
  if t.state = TimerState.PAUSED then
    { ok := true
      timer := { t with
        session_start_time := t.session_start_time + (now - t.pause_time)
        state := t.previous_state }
      events := [{ event_type := "timer_resumed" }] }
  else
    { ok := false, timer := t, events := [] }

/-- PomodoroTimer.stop. -/
def PomodoroTimer.stop (t : PomodoroTimer) : TimerRes :=
  if t.state ≠ TimerState.IDLE then
    { ok := true
      timer := { t with
        state := TimerState.IDLE
        time_remaining := 0
        current_break_activity := none }
      events := [{ event_type := "timer_stopped" }] }
  else
    { ok := false, timer := t, events := [] }

/-- PomodoroTimer.skip. -/
def PomodoroTimer.skip (t : PomodoroTimer) (now : ℚ) (choice : Nat) : TimerRes :=
  if t.state = TimerState.FOCUS then
    let r := t.start_break false now choice
    { r with events := { event_type := "focus_skipped" } :: r.events }
  else if t.state = TimerState.SHORT_BREAK ∨ t.state = TimerState.LONG_BREAK then
    let t1 := { t with state := TimerState.IDLE }
    let r := t1.start_focus now
    { r with events := { event_type := "break_skipped" } :: r.events }
  else
    { ok := false, timer := t, events := [] }

/-- PomodoroTimer._get_current_duration. -/
def PomodoroTimer.getCurrentDuration (t : PomodoroTimer) : Int :=
  match t.state with
  | TimerState.FOCUS => t.settings.focus_duration
  | TimerState.SHORT_BREAK => t.settings.short_break_duration
  | TimerState.LONG_BREAK => t.settings.long_break_duration
  | _ => 0

/-- PomodoroTimer._handle_timer_complete. -/
def PomodoroTimer.handleTimerComplete (t : PomodoroTimer) (now : ℚ) (choice : Nat) :
    PomodoroTimer × List TimerEvent :=
  if t.state = TimerState.FOCUS then
    let r := t.start_break false now choice
    (r.timer, { event_type := "focus_completed" } :: r.events)
  else if t.state = TimerState.SHORT_BREAK ∨ t.state = TimerState.LONG_BREAK then
    ({ t with state := TimerState.IDLE, current_break_activity := none },
      [{ event_type := "break_completed" }])
  else
    (t, [])

/-- The focus-reminder check inside PomodoroTimer.update: during FOCUS, when
the reminder interval has elapsed since the last reminder, reset the reminder
clock and emit focus_reminder. -/
def PomodoroTimer.reminderStep (t : PomodoroTimer) (now : ℚ) :
    PomodoroTimer × List TimerEvent :=
  if t.state = TimerState.FOCUS ∧
      now - t.last_reminder_time ≥ (t.settings.focus_reminder_interval : ℚ) then
    ({ t with last_reminder_time := now },
      [({ event_type := "focus_reminder" } : TimerEvent)])
  else
    (t, [])

/-- PomodoroTimer.update: recompute time_remaining from absolute time, run
the reminder check, then the completion handler if the remaining time reached
zero. The several time.time() reads inside one call are modelled as the
single instant now. -/
def PomodoroTimer.update (t : PomodoroTimer) (now : ℚ) (choice : Nat) :
    PomodoroTimer × List TimerEvent :=
  if t.state = TimerState.PAUSED then
    (t, [])
  else if t.state = TimerState.FOCUS ∨ t.state = TimerState.SHORT_BREAK ∨
      t.state = TimerState.LONG_BREAK then
    let elapsed : ℚ := now - t.session_start_time
    let duration := t.getCurrentDuration
    let t1 := { t with time_remaining := max 0 (pyInt ((duration : ℚ) - elapsed)) }
    let step2 := t1.reminderStep now
    if step2.1.time_remaining ≤ 0 then
      let done := step2.1.handleTimerComplete now choice
      (done.1, step2.2 ++ done.2)
    else
      (step2.1, step2.2)
  else
    (t, [])

/-- The wall-clock times and random draw of one focus-then-break cycle. -/
structure CycleParams where
  focus_time : ℚ
  break_time : ℚ
  choice : Nat
  deriving DecidableEq

/-- One focus-then-break cycle: start_focus, then start_break with
force_long=false, as driven by the caller between timer completions. -/
def focusBreakCycle (t : PomodoroTimer) (p : CycleParams) : PomodoroTimer :=
  ((t.start_focus p.focus_time).timer.start_break false p.break_time p.choice).timer

/-- A run of consecutive focus-then-break cycles. -/
def runCycles (t : PomodoroTimer) : List CycleParams → PomodoroTimer
  | [] => t
  | p :: ps => runCycles (focusBreakCycle t p) ps

end Pomodoro

namespace Movements

/-- Movement kinds, from movements.py MovementType. -/
inductive MovementType
  | IDLE
  | BREATHING
  | TALKING
  | LISTENING
  | FOCUS_START
  | FOCUS_REMINDER
  | FOCUS_COMPLETE
  | BREAK_START
  | BREAK_ACTIVITY
  | TASK_COMPLETE
  | CELEBRATION
  | NOD_YES
  | NOD_NO
  | LOOK_AROUND
  | STRETCH_DEMO
  | BREATHING_DEMO
  deriving DecidableEq

/-- movements.py MovementState. The opaque data payload dict is modelled as an
optional token; no movement logic reads it. -/
structure MovementState where
  movement_type : MovementType
  start_time : ℚ
  duration : ℚ
  loop : Bool := false
  data : Option String := none
  deriving DecidableEq

/-- MovementState.elapsed, with time.time() passed in as now. -/
def MovementState.elapsed (m : MovementState) (now : ℚ) : ℚ :=
  now - m.start_time

/-- MovementState.progress. -/
def MovementState.progress (m : MovementState) (now : ℚ) : ℚ :=
  if m.loop then
    pyMod (m.elapsed now) m.duration / m.duration
  else
    min 1 (m.elapsed now / m.duration)

/-- MovementState.is_complete. -/
def MovementState.is_complete (m : MovementState) (now : ℚ) : Bool :=
  if m.loop then false else decide (m.elapsed now ≥ m.duration)

/-- Abstract interpretation of the transcendental functions used by the pose
math (math.sin, math.cos via scipy, math.pi). Every theorem below holds for
every interpretation. -/
structure Trig where
  sin : ℚ → ℚ
  cos : ℚ → ℚ
  pi : ℚ

/-- Degrees to radians, as scipy does internally for degrees=True. -/
def degToRad (T : Trig) (a : ℚ) : ℚ := a * T.pi / 180

/-- math.degrees. -/
def radToDeg (T : Trig) (a : ℚ) : ℚ := a * 180 / T.pi

/-- A 4x4 homogeneous pose matrix. -/
abbrev Pose := Matrix (Fin 4) (Fin 4) ℚ

/-- Rotation about the x axis by an angle in radians. -/
def rotX (T : Trig) (a : ℚ) : Matrix (Fin 3) (Fin 3) ℚ :=
  Matrix.of ![![1, 0, 0], ![0, T.cos a, -T.sin a], ![0, T.sin a, T.cos a]]

/-- Rotation about the y axis by an angle in radians. -/
def rotY (T : Trig) (a : ℚ) : Matrix (Fin 3) (Fin 3) ℚ :=
  Matrix.of ![![T.cos a, 0, T.sin a], ![0, 1, 0], ![-T.sin a, 0, T.cos a]]

/-- Rotation about the z axis by an angle in radians. -/
def rotZ (T : Trig) (a : ℚ) : Matrix (Fin 3) (Fin 3) ℚ :=
  Matrix.of ![![T.cos a, -T.sin a, 0], ![T.sin a, T.cos a, 0], ![0, 0, 1]]

/-- scipy R.from_euler with sequence xyz (extrinsic) and degrees=True:
rotate about fixed x, then y, then z, composite Rz Ry Rx. -/
def rotFromEulerXYZDeg (T : Trig) (a1 a2 a3 : ℚ) : Matrix (Fin 3) (Fin 3) ℚ :=
  rotZ T (degToRad T a3) * rotY T (degToRad T a2) * rotX T (degToRad T a1)

/-- Assemble a 4x4 pose from a 3x3 rotation block and a translation column. -/
def poseFromRotTrans (r3 : Matrix (Fin 3) (Fin 3) ℚ) (x y z : ℚ) : Pose :=
  Matrix.of
    ![![r3 0 0, r3 0 1, r3 0 2, x],
      ![r3 1 0, r3 1 1, r3 1 2, y],
      ![r3 2 0, r3 2 1, r3 2 2, z],
      ![0, 0, 0, 1]]

/-- MovementManager._create_pose: euler angles in degrees, translation in
millimeters converted to meters. -/
def createPose (T : Trig) (roll pitch yaw x y z : ℚ) : Pose :=
  poseFromRotTrans (rotFromEulerXYZDeg T roll pitch yaw) (x / 1000) (y / 1000) (z / 1000)

/-- The speech offset 6-tuple (x, y, z, roll, pitch, yaw), meters/radians. -/
structure SpeechOffsets where
  x : ℚ
  y : ℚ
  z : ℚ
  roll : ℚ
  pitch : ℚ
  yaw : ℚ
  deriving DecidableEq

/-- The all-zero offset tuple. -/
def zeroOffsets : SpeechOffsets :=
  { x := 0, y := 0, z := 0, roll := 0, pitch := 0, yaw := 0 }

/-- MovementManager._apply_speech_offsets: identity when the stored tuple is
all zero, otherwise right-compose an offset transform built from the tuple
(math.degrees of the radian angles fed back through degrees=True). -/
def applySpeechOffsets (T : Trig) (o : SpeechOffsets) (base_pose : Pose) : Pose :=
  if o.x = 0 ∧ o.y = 0 ∧ o.z = 0 ∧ o.roll = 0 ∧ o.pitch = 0 ∧ o.yaw = 0 then
    base_pose
  else
    let offset_pose := poseFromRotTrans
      (rotFromEulerXYZDeg T (radToDeg T o.roll) (radToDeg T o.pitch) (radToDeg T o.yaw))
      o.x o.y o.z
    base_pose * offset_pose

/-- The value returned by MovementManager.update: head pose, the two antenna
positions, and the body yaw. -/
structure PoseResult where
  pose : Pose
  antennas : ℚ × ℚ
  body_yaw : ℚ

/-- MovementManager._idle_pose, with t = now - base_time. -/
def idlePose (T : Trig) (t : ℚ) : PoseResult :=
  let pitch := 2 * T.sin (2 * T.pi * 0.15 * t)
  let z := 3 * T.sin (2 * T.pi * 0.15 * t)
  let antenna_offset := 0.05 * T.sin (2 * T.pi * 0.2 * t)
  { pose := createPose T 0 pitch 0 0 0 z
    antennas := (antenna_offset, -antenna_offset)
    body_yaw := 0 }

/-- MovementManager._breathing_pose. -/
def breathingPose (T : Trig) (elapsed : ℚ) : PoseResult :=
  let pitch := 5 * T.sin (2 * T.pi * 0.1 * elapsed)
  let z := 8 * T.sin (2 * T.pi * 0.1 * elapsed)
  let antenna_base : ℚ := 0.3
  let antenna_variation := 0.1 * T.sin (2 * T.pi * 0.1 * elapsed)
  { pose := createPose T 0 pitch 0 0 0 z
    antennas := (antenna_base + antenna_variation, antenna_base - antenna_variation)
    body_yaw := 0 }

/-- MovementManager._talking_pose. -/
def talkingPose (T : Trig) (elapsed : ℚ) : PoseResult :=
  let nod_fast := 3 * T.sin (2 * T.pi * 2.5 * elapsed)
  let nod_slow := 2 * T.sin (2 * T.pi * 0.8 * elapsed)
  let pitch := nod_fast + nod_slow
  let roll := 2 * T.sin (2 * T.pi * 0.6 * elapsed + 0.5)
  let yaw := 3 * T.sin (2 * T.pi * 0.4 * elapsed)
  let antenna_base : ℚ := 0.25
  let antenna_wiggle := 0.1 * T.sin (2 * T.pi * 1.5 * elapsed)
  { pose := createPose T roll pitch yaw 0 0 0
    antennas := (antenna_base + antenna_wiggle, antenna_base - antenna_wiggle)
    body_yaw := 0 }

/-- MovementManager._listening_pose. -/
def listeningPose (T : Trig) (elapsed : ℚ) : PoseResult :=
  let pitch : ℚ := -5
  let roll := 2 * T.sin (2 * T.pi * 0.4 * elapsed)
  let yaw := 3 * T.sin (2 * T.pi * 0.25 * elapsed)
  let antenna_base : ℚ := 0.45
  let antenna_wave := 0.15 * T.sin (2 * T.pi * 0.6 * elapsed)
  let antenna_flutter := 0.05 * T.sin (2 * T.pi * 1.5 * elapsed)
  let right_antenna := antenna_base + antenna_wave + antenna_flutter
  let left_antenna := antenna_base + 0.12 * T.sin (2 * T.pi * 0.6 * elapsed + 0.3)
    + antenna_flutter
  { pose := createPose T roll pitch yaw 0 0 0
    antennas := (right_antenna, left_antenna)
    body_yaw := 0 }

/-- MovementManager._focus_start_pose. -/
def focusStartPose (T : Trig) (progress : ℚ) : PoseResult :=
  let pr :=
    if progress < 0.3 then
      let p := progress / 0.3
      (-15 * T.sin (T.pi * p), 10 * T.sin (T.pi * p))
    else if progress < 0.6 then
      let p := (progress - 0.3) / 0.3
      (-15 * (1 - p) * T.sin (T.pi * 0.5), 10 * (1 - p))
    else
      (0, 0)
  let antenna_up := 0.5 * min 1 (progress * 2)
  { pose := createPose T pr.2 pr.1 0 0 0 0
    antennas := (antenna_up, antenna_up)
    body_yaw := 0 }

/-- MovementManager._focus_reminder_pose. -/
def focusReminderPose (T : Trig) (progress : ℚ) : PoseResult :=
  let ry :=
    if progress < 0.5 then
      let p := progress / 0.5
      (8 * T.sin (T.pi * p), 5 * T.sin (T.pi * p))
    else
      let p := (progress - 0.5) / 0.5
      (8 * (1 - p), 5 * (1 - p))
  { pose := createPose T ry.1 0 ry.2 0 0 0
    antennas := (0.2, 0.2)
    body_yaw := 0 }

/-- MovementManager._focus_complete_pose. -/
def focusCompletePose (T : Trig) (progress : ℚ) : PoseResult :=
  let bounce := T.sin (T.pi * progress * 2) * (1 - progress)
  let z := 15 * bounce
  let pitch := -10 * bounce
  let antenna_wave := 0.5 * T.sin (T.pi * progress * 3)
  { pose := createPose T 0 pitch 0 0 0 z
    antennas := (0.3 + antenna_wave, 0.3 - antenna_wave)
    body_yaw := 0 }

/-- MovementManager._break_start_pose. -/
def breakStartPose (T : Trig) (progress : ℚ) : PoseResult :=
  let pz :=
    if progress < 0.4 then
      let p := progress / 0.4
      (-10 * p, 10 * p)
    else
      let p := (progress - 0.4) / 0.6
      (-10 + 15 * p, 10 - 5 * p)
  let antenna_pos := 0.4 * (1 - progress)
  { pose := createPose T 0 pz.1 0 0 0 pz.2
    antennas := (antenna_pos, antenna_pos)
    body_yaw := 0 }

/-- MovementManager._celebration_pose. -/
def celebrationPose (T : Trig) (elapsed : ℚ) : PoseResult :=
  let bounce_freq : ℚ := 1.0
  let sway_freq : ℚ := 0.5
  let z := 15 * |T.sin (2 * T.pi * bounce_freq * elapsed)|
  let yaw := 20 * T.sin (2 * T.pi * sway_freq * elapsed)
  let roll := 15 * T.sin (2 * T.pi * sway_freq * elapsed + T.pi / 4)
  let antenna_wave := 0.6 * T.sin (2 * T.pi * 0.8 * elapsed)
  { pose := createPose T roll 0 yaw 0 0 z
    antennas := (antenna_wave, -antenna_wave)
    body_yaw := 0 }

/-- MovementManager._task_complete_pose. -/
def taskCompletePose (T : Trig) (elapsed : ℚ) : PoseResult :=
  let zpa :=
    if elapsed < 1.0 then
      (20 * T.sin (T.pi * elapsed), -15 * T.sin (T.pi * elapsed), (0.7 : ℚ))
    else
      let p := min 1 (elapsed - 1.0)
      (0, 0, 0.7 * (1 - p))
  { pose := createPose T 0 zpa.2.1 0 0 0 zpa.1
    antennas := (zpa.2.2, zpa.2.2)
    body_yaw := 0 }

/-- MovementManager._nod_yes_pose. -/
def nodYesPose (T : Trig) (progress : ℚ) : PoseResult :=
  let nod_cycle := progress * 2
  let pitch := -12 * T.sin (T.pi * nod_cycle * 2)
  { pose := createPose T 0 pitch 0 0 0 0
    antennas := (0.2, 0.2)
    body_yaw := 0 }

/-- MovementManager._nod_no_pose. -/
def nodNoPose (T : Trig) (progress : ℚ) : PoseResult :=
  let shake_cycle := progress * 2
  let yaw := 15 * T.sin (T.pi * shake_cycle * 2)
  { pose := createPose T 0 0 yaw 0 0 0
    antennas := (-0.2, -0.2)
    body_yaw := 0 }

/-- MovementManager._look_around_pose. -/
def lookAroundPose (T : Trig) (elapsed : ℚ) : PoseResult :=
  let yaw := 30 * T.sin (2 * T.pi * 0.3 * elapsed)
  let pitch := 10 * T.sin (2 * T.pi * 0.2 * elapsed + 0.5)
  let antenna_offset := 0.3 * T.sin (2 * T.pi * 0.4 * elapsed)
  { pose := createPose T 0 pitch yaw 0 0 0
    antennas := (0.3 + antenna_offset, 0.3 - antenna_offset)
    body_yaw := 0 }

/-- MovementManager._stretch_demo_pose. The Python control flow assigns yaw in
the first two quarter-cycles, pitch in the last two, and then overwrites pitch
with 0 whenever cycle < 2. -/
def stretchDemoPose (T : Trig) (progress : ℚ) : PoseResult :=
  let cycle := progress * 4
  let yaw :=
    if cycle < 1 then 25 * T.sin (T.pi * cycle)
    else if cycle < 2 then -25 * T.sin (T.pi * (cycle - 1))
    else 0
  let pitch :=
    if cycle < 2 then 0
    else if cycle < 3 then -20 * T.sin (T.pi * (cycle - 2))
    else 15 * T.sin (T.pi * (cycle - 3))
  { pose := createPose T 0 pitch yaw 0 0 0
    antennas := (0.2, 0.2)
    body_yaw := 0 }

/-- MovementManager._breathing_demo_pose. -/
def breathingDemoPose (T : Trig) (elapsed : ℚ) : PoseResult :=
  let cycle_duration : ℚ := 12.0
  let cycle_pos := pyMod elapsed cycle_duration / cycle_duration
  let zp :=
    if cycle_pos < 0.33 then
      let p := cycle_pos / 0.33
      (20 * p, -10 * p)
    else if cycle_pos < 0.66 then
      (20, -10)
    else
      let p := (cycle_pos - 0.66) / 0.34
      (20 * (1 - p), -10 * (1 - p))
  let antenna_pos := 0.4 * (zp.1 / 20)
  { pose := createPose T 0 zp.2 0 0 0 zp.1
    antennas := (antenna_pos, antenna_pos)
    body_yaw := 0 }

/-- movements.py MovementManager fields. -/
structure MovementManager where
  current_movement : Option MovementState
  queued_movements : List MovementState
  base_time : ℚ
  speech_offsets : SpeechOffsets
  is_listening : Bool
  deriving DecidableEq

/-- MovementManager.__init__, with time.time() passed in as now. -/
def MovementManager.init (now : ℚ) : MovementManager :=
  { current_movement := none
    queued_movements := []
    base_time := now
    speech_offsets := zeroOffsets
    is_listening := false }

/-- MovementManager.start_movement. -/
def MovementManager.start_movement (m : MovementManager) (ty : MovementType)
    (now dur : ℚ) (loop : Bool) : MovementManager :=
  let g : MovementState :=
    { movement_type := ty, start_time := now, duration := dur, loop := loop }
  { m with current_movement := some g }

/-- MovementManager.queue_movement: start_time is 0 until promotion. -/
def MovementManager.queue_movement (m : MovementManager) (ty : MovementType)
    (dur : ℚ) (loop : Bool) : MovementManager :=
  { m with queued_movements := m.queued_movements ++
      [{ movement_type := ty, start_time := 0, duration := dur, loop := loop }] }

/-- MovementManager.stop_movement. -/
def MovementManager.stop_movement (m : MovementManager) : MovementManager :=
  { m with current_movement := none, queued_movements := [] }

/-- MovementManager.set_speech_offsets. -/
def MovementManager.set_speech_offsets (m : MovementManager) (o : SpeechOffsets) :
    MovementManager :=
  { m with speech_offsets := o }

/-- MovementManager.clear_speech_offsets. -/
def MovementManager.clear_speech_offsets (m : MovementManager) : MovementManager :=
  { m with speech_offsets := zeroOffsets }

/-- MovementManager.set_listening. -/
def MovementManager.set_listening (m : MovementManager) (b : Bool) : MovementManager :=
  { m with is_listening := b }

/-- The state-mutation prefix of MovementManager.update: completion detection
and queue promotion, performed in the same call. -/
def MovementManager.stepQueue (m : MovementManager) (now : ℚ) : MovementManager :=
  match m.current_movement with
  | some c =>
    if c.is_complete now then
      match m.queued_movements with
      | next :: rest =>
        { m with
          current_movement := some ({ next with start_time := now })
          queued_movements := rest }
      | [] => { m with current_movement := none }
    else m
  | none => m

/-- The pose-dispatch part of MovementManager.update: one branch per movement
kind; kinds without a branch (BREAK_ACTIVITY) fall back to the idle pose. -/
def MovementManager.basePose (T : Trig) (m : MovementManager) (now : ℚ) : PoseResult :=
  match m.current_movement with
  | none => idlePose T (now - m.base_time)
  | some c =>
    match c.movement_type with
    | MovementType.IDLE => idlePose T (now - m.base_time)
    | MovementType.BREATHING => breathingPose T (c.elapsed now)
    | MovementType.TALKING => talkingPose T (c.elapsed now)
    | MovementType.LISTENING => listeningPose T (c.elapsed now)
    | MovementType.FOCUS_START => focusStartPose T (c.progress now)
    | MovementType.FOCUS_REMINDER => focusReminderPose T (c.progress now)
    | MovementType.FOCUS_COMPLETE => focusCompletePose T (c.progress now)
    | MovementType.BREAK_START => breakStartPose T (c.progress now)
    | MovementType.CELEBRATION => celebrationPose T (c.elapsed now)
    | MovementType.TASK_COMPLETE => taskCompletePose T (c.elapsed now)
    | MovementType.NOD_YES => nodYesPose T (c.progress now)
    | MovementType.NOD_NO => nodNoPose T (c.progress now)
    | MovementType.LOOK_AROUND => lookAroundPose T (c.elapsed now)
    | MovementType.STRETCH_DEMO => stretchDemoPose T (c.progress now)
    | MovementType.BREATHING_DEMO => breathingDemoPose T (c.elapsed now)
    | MovementType.BREAK_ACTIVITY => idlePose T (now - m.base_time)

/-- MovementManager.update: mutate the queue state, compute the base pose for
the possibly just-promoted gesture, then layer the speech offsets onto the
head pose only. -/
def MovementManager.update (T : Trig) (m : MovementManager) (now : ℚ) :
    MovementManager × PoseResult :=
  let m1 := m.stepQueue now
  let r := m1.basePose T now
  (m1, { r with pose := applySpeechOffsets T m1.speech_offsets r.pose })

end Movements

namespace Wobbler

open Movements (SpeechOffsets zeroOffsets)

/-- A decoded audio chunk: int16 PCM samples. -/
abbrev AudioChunk := List Int

/-- One analysis result emitted by the sway analyzer, as consumed by
HeadWobbler._working_loop (keys x_mm, y_mm, z_mm, roll_rad, pitch_rad,
yaw_rad of the result dict). -/
structure SwaySample where
  x_mm : ℚ
  y_mm : ℚ
  z_mm : ℚ
  roll_rad : ℚ
  pitch_rad : ℚ
  yaw_rad : ℚ
  deriving DecidableEq

/-- The offset tuple the worker builds from one sway sample: millimeters are
converted to meters, the angles pass through. -/
def sampleToOffsets (r : SwaySample) : SpeechOffsets :=
  { x := r.x_mm / 1000
    y := r.y_mm / 1000
    z := r.z_mm / 1000
    roll := r.roll_rad
    pitch := r.pitch_rad
    yaw := r.yaw_rad }

/-- voice/head_wobbler.py HeadWobbler state: the generation counter, the FIFO
audio queue of generation-stamped chunks, and the sway analyzer state.

Modelled from the spec: the SwayRollRT analyzer itself lives in
reachy_mini_pomodoro/voice/speech_tapper.py, which is absent from src/, so
its state is an opaque type parameter and its feed/reset behaviour is passed
in as a function wherever it is needed; the spec describes it only as an
incremental envelope/sway extractor. -/
structure WobblerState (σ : Type) where
  generation : Nat
  audio_queue : List (Nat × AudioChunk)
  sway : σ

/-- HeadWobbler.feed: stamp the chunk with the generation read under the state
lock and push it onto the queue (base64/bytes decoding is not modelled: the
chunk arrives already decoded). -/
def WobblerState.feedAudio {σ : Type} (w : WobblerState σ) (c : AudioChunk) :
    WobblerState σ :=
  { w with audio_queue := w.audio_queue ++ [(w.generation, c)] }

/-- HeadWobbler.reset: bump the generation, drain the queue, reset the sway
state, and immediately apply the zero offset tuple. The second component is
the list of offsets applied through the callback during the call. -/
def WobblerState.reset {σ : Type} (swayReset : σ → σ) (w : WobblerState σ) :
    WobblerState σ × List SpeechOffsets :=
  ({ generation := w.generation + 1, audio_queue := [], sway := swayReset w.sway },
    [zeroOffsets])

/-- The body of HeadWobbler._working_loop, run until the queue is empty, with
the generation fixed (no concurrent reset while draining): dequeue a chunk,
drop it if its stamp differs from the current generation, otherwise run the
sway analyzer on it and apply one offset tuple per result sample. The feed
function returns an Except: the Python loop has no handler between the
dequeue and the processing, so an error ends the loop at once, returning the
unprocessed remainder of the queue and the error. Result components: leftover
queue, sway state, offsets applied in order, and the terminating error if
any. -/
def drainLoop {σ ε : Type} (feed : σ → AudioChunk → Except ε (σ × List SwaySample))
    (gen : Nat) :
    List (Nat × AudioChunk) → σ →
      List (Nat × AudioChunk) × σ × List SpeechOffsets × Option ε
  | [], s => ([], s, [], none)
  | (g, c) :: rest, s =>
    if g ≠ gen then
      drainLoop feed gen rest s
    else
      match feed s c with
      | Except.error e => (rest, s, [], some e)
      | Except.ok (s2, results) =>
        let r := drainLoop feed gen rest s2
        (r.1, r.2.1, results.map sampleToOffsets ++ r.2.2.1, r.2.2.2)

/-- Drain the whole queue of a wobbler through the worker loop. -/
def WobblerState.drain {σ ε : Type}
    (feed : σ → AudioChunk → Except ε (σ × List SwaySample)) (w : WobblerState σ) :
    WobblerState σ × List SpeechOffsets × Option ε :=
  let r := drainLoop feed w.generation w.audio_queue w.sway
  ({ w with audio_queue := r.1, sway := r.2.1 }, r.2.2.1, r.2.2.2)

end Wobbler

open Pomodoro Movements Wobbler

/-- Claim C4: each of the six timer operations, invoked from a state where it
is not legal, returns False, emits no event, and leaves every field of the
timer unchanged (the operations are total functions, so no exception can
arise). In particular start_focus from FOCUS fails with the state unchanged,
and skip fails from PAUSED and from IDLE. -/
theorem C4_illegal_transitions_noop (t : PomodoroTimer) (now : ℚ) (choice : Nat)
    (f : Bool) :
    ((t.state = TimerState.FOCUS ∨ t.state = TimerState.PAUSED) →
      t.start_focus now = { ok := false, timer := t, events := [] }) ∧
    (t.state ≠ TimerState.FOCUS →
      t.start_break f now choice = { ok := false, timer := t, events := [] }) ∧
    ((t.state = TimerState.IDLE ∨ t.state = TimerState.PAUSED) →
      t.pause now = { ok := false, timer := t, events := [] }) ∧
    (t.state ≠ TimerState.PAUSED →
      t.resume now = { ok := false, timer := t, events := [] }) ∧
    (t.state = TimerState.IDLE →
      t.stop = { ok := false, timer := t, events := [] }) ∧
    ((t.state = TimerState.IDLE ∨ t.state = TimerState.PAUSED) →
      t.skip now choice = { ok := false, timer := t, events := [] }) := by
  refine ⟨?_, ?_, ?_, ?_, ?_, ?_⟩
  · rintro (h | h) <;>
      simp [PomodoroTimer.start_focus, h]
  · intro h
    simp [PomodoroTimer.start_break, h]
  · rintro (h | h) <;>
      simp [PomodoroTimer.pause, h]
  · intro h
    simp [PomodoroTimer.resume, h]
  · intro h
    simp [PomodoroTimer.stop, h]
  · rintro (h | h) <;>
      simp [PomodoroTimer.skip, h]

/-- Witness for C4: the fresh timer is IDLE, so start_break, resume and skip
all fail on it without touching it. -/
theorem C4_illegal_transitions_noop_witness :
    (PomodoroTimer.init {}).start_break false 0 0 =
      { ok := false, timer := PomodoroTimer.init {}, events := [] } ∧
    (PomodoroTimer.init {}).resume 0 =
      { ok := false, timer := PomodoroTimer.init {}, events := [] } ∧
    (PomodoroTimer.init {}).skip 0 0 =
      { ok := false, timer := PomodoroTimer.init {}, events := [] } :=
  ⟨(C4_illegal_transitions_noop (PomodoroTimer.init {}) 0 0 false).2.1
      (by simp [PomodoroTimer.init]),
    (C4_illegal_transitions_noop (PomodoroTimer.init {}) 0 0 false).2.2.2.1
      (by simp [PomodoroTimer.init]),
    (C4_illegal_transitions_noop (PomodoroTimer.init {}) 0 0 false).2.2.2.2.2
      (Or.inl (by simp [PomodoroTimer.init]))⟩

/-- Helper: the reminder check can only touch last_reminder_time. -/
theorem reminderStep_fields (t : PomodoroTimer) (now : ℚ) :
    (t.reminderStep now).1.time_remaining = t.time_remaining ∧
    (t.reminderStep now).1.state = t.state ∧
    (t.reminderStep now).1.settings = t.settings ∧
    (t.reminderStep now).1.pomodoros_in_cycle = t.pomodoros_in_cycle ∧
    (t.reminderStep now).1.total_pomodoros = t.total_pomodoros ∧
    (t.reminderStep now).1.session_start_time = t.session_start_time := by
  simp only [PomodoroTimer.reminderStep]
  split <;> simp

/-- Helper: completing a focus session starts the break selected on the
incremented cycle count. -/
theorem handleTimerComplete_focus (s : PomodoroTimer) (now : ℚ) (choice : Nat)
    (h : s.state = TimerState.FOCUS) :
    (s.handleTimerComplete now choice).1.state =
      (if s.settings.pomodoros_until_long_break ≤ s.pomodoros_in_cycle + 1 then
        TimerState.LONG_BREAK else TimerState.SHORT_BREAK) ∧
    (s.handleTimerComplete now choice).1.time_remaining =
      (if s.settings.pomodoros_until_long_break ≤ s.pomodoros_in_cycle + 1 then
        s.settings.long_break_duration else s.settings.short_break_duration) := by
  simp only [PomodoroTimer.handleTimerComplete, PomodoroTimer.start_break, h]
  simp [ge_iff_le]
  split <;> simp

/-- Helper: completing a break returns to IDLE without touching the remaining
time already computed. -/
theorem handleTimerComplete_break (s : PomodoroTimer) (now : ℚ) (choice : Nat)
    (h : s.state = TimerState.SHORT_BREAK ∨ s.state = TimerState.LONG_BREAK) :
    (s.handleTimerComplete now choice).1.state = TimerState.IDLE ∧
    (s.handleTimerComplete now choice).1.time_remaining = s.time_remaining := by
  rcases h with h | h <;>
    simp +decide [PomodoroTimer.handleTimerComplete, h]

/-- Helper: in a running state whose recomputed remaining time is positive,
update() stores exactly that value. -/
theorem update_running_positive (t : PomodoroTimer) (now : ℚ) (choice : Nat)
    (hs : t.state = TimerState.FOCUS ∨ t.state = TimerState.SHORT_BREAK ∨
      t.state = TimerState.LONG_BREAK)
    (hpos : 0 < max 0 (pyInt ((t.getCurrentDuration : ℚ) -
      (now - t.session_start_time)))) :
    (t.update now choice).1.time_remaining =
      max 0 (pyInt ((t.getCurrentDuration : ℚ) - (now - t.session_start_time))) := by
  have hnp : ¬ t.state = TimerState.PAUSED := by
    rcases hs with h | h | h <;> simp [h]
  set r : Int := max 0 (pyInt ((t.getCurrentDuration : ℚ) - (now - t.session_start_time)))
    with hr
  set t1 : PomodoroTimer := { t with time_remaining := r } with ht1
  have hup : t.update now choice =
      (if (t1.reminderStep now).1.time_remaining ≤ 0 then
        (((t1.reminderStep now).1.handleTimerComplete now choice).1,
          (t1.reminderStep now).2 ++
            ((t1.reminderStep now).1.handleTimerComplete now choice).2)
      else ((t1.reminderStep now).1, (t1.reminderStep now).2)) := by
    simp only [PomodoroTimer.update, hnp, if_false, hs, if_true, ← hr, ← ht1]
  have hf := reminderStep_fields t1 now
  rw [hup, if_neg (by rw [hf.1]; simp only [ht1]; omega)]
  rw [hf.1]

/-- Claim C2: pausing at time p and resuming after any delay dt leaves
time_remaining exactly unchanged, both immediately after resume() and after
the next update(): resume() shifts session_start_time forward by exactly
(now - pause_time) and restores the state saved in previous_state. The
coherence hypothesis says time_remaining held the recomputed (positive) value
at the pause instant, as after an update() at that instant. -/
theorem C2_pause_resume_roundtrip (t : PomodoroTimer) (p dt : ℚ) (choice : Nat)
    (hs : t.state = TimerState.FOCUS ∨ t.state = TimerState.SHORT_BREAK ∨
      t.state = TimerState.LONG_BREAK)
    (hdt : 0 ≤ dt)
    (hcoh : t.time_remaining =
      max 0 (pyInt ((t.getCurrentDuration : ℚ) - (p - t.session_start_time))))
    (hpos : 0 < t.time_remaining) :
    (t.pause p).ok = true ∧
    ((t.pause p).timer.resume (p + dt)).ok = true ∧
    ((t.pause p).timer.resume (p + dt)).timer.state = t.state ∧
    ((t.pause p).timer.resume (p + dt)).timer.session_start_time =
      t.session_start_time + dt ∧
    ((t.pause p).timer.resume (p + dt)).timer.time_remaining = t.time_remaining ∧
    (((t.pause p).timer.resume (p + dt)).timer.update (p + dt) choice).1.time_remaining
      = t.time_remaining := by
  have hpause : t.pause p =
      { ok := true
        timer := { t with
          previous_state := t.state
          pause_time := p
          state := TimerState.PAUSED }
        events := [{ event_type := "timer_paused" }] } := by
    simp only [PomodoroTimer.pause, hs, if_true]
  have hresume : (t.pause p).timer.resume (p + dt) =
      { ok := true
        timer := { t with
          previous_state := t.state
          pause_time := p
          session_start_time := t.session_start_time + (p + dt - p)
          state := t.state }
        events := [{ event_type := "timer_resumed" }] } := by
    rw [hpause]
    simp [PomodoroTimer.resume]
  refine ⟨by rw [hpause], by rw [hresume], by rw [hresume], by rw [hresume]; ring,
    by rw [hresume], ?_⟩
  rw [hresume]
  set tr : PomodoroTimer :=
    { t with
      previous_state := t.state
      pause_time := p
      session_start_time := t.session_start_time + (p + dt - p)
      state := t.state }
    with htr
  have hdur : tr.getCurrentDuration = t.getCurrentDuration := rfl
  have harg : (p + dt) - tr.session_start_time = p - t.session_start_time := by
    simp only [htr]
    ring
  have hrs : tr.state = TimerState.FOCUS ∨ tr.state = TimerState.SHORT_BREAK ∨
      tr.state = TimerState.LONG_BREAK := hs
  have h6 := update_running_positive tr (p + dt) choice hrs
    (by rw [hdur, harg, ← hcoh]; exact hpos)
  rw [h6, hdur, harg, ← hcoh]

/-- Witness for C2: a focus session started at 0 and updated at 10 (so
time_remaining is 1490), paused at 10 and resumed 50 seconds later, shows the
same time_remaining after resume and after the following update. -/
theorem C2_pause_resume_roundtrip_witness :
    ((((((PomodoroTimer.init {}).start_focus 0).timer.update 10 0).1.pause 10).timer.resume
        (10 + 50)).timer.time_remaining =
      ((((PomodoroTimer.init {}).start_focus 0).timer.update 10 0).1).time_remaining) ∧
    (((((((PomodoroTimer.init {}).start_focus 0).timer.update 10 0).1.pause 10).timer.resume
        (10 + 50)).timer.update (10 + 50) 0).1.time_remaining =
      ((((PomodoroTimer.init {}).start_focus 0).timer.update 10 0).1).time_remaining) := by
  have h := C2_pause_resume_roundtrip
    ((((PomodoroTimer.init {}).start_focus 0).timer.update 10 0).1) 10 50 0
    (Or.inl (by norm_num +decide [PomodoroTimer.init, PomodoroTimer.start_focus,
      PomodoroTimer.update, PomodoroTimer.reminderStep, PomodoroTimer.getCurrentDuration,
      PomodoroTimer.handleTimerComplete, PomodoroTimer.start_break, pyInt]))
    (by norm_num)
    (by norm_num +decide [PomodoroTimer.init, PomodoroTimer.start_focus,
      PomodoroTimer.update, PomodoroTimer.reminderStep, PomodoroTimer.getCurrentDuration,
      PomodoroTimer.handleTimerComplete, PomodoroTimer.start_break, pyInt])
    (by norm_num +decide [PomodoroTimer.init, PomodoroTimer.start_focus,
      PomodoroTimer.update, PomodoroTimer.reminderStep, PomodoroTimer.getCurrentDuration,
      PomodoroTimer.handleTimerComplete, PomodoroTimer.start_break, pyInt])
  exact ⟨h.2.2.2.2.1, h.2.2.2.2.2⟩

/-- Claim C1 counterexample: with the default settings, start a focus session
at time 0 and call update() at time 1500, the exact focus duration. The
claimed formula gives max(0, 1500 - (1500 - 0)) = 0, but update() runs the
completion handler, which immediately starts a short break, so after the call
time_remaining is 300 and the state is SHORT_BREAK. -/
theorem C1_counterexample :
    ((PomodoroTimer.init {}).start_focus 0).timer.state = TimerState.FOCUS ∧
    ((((PomodoroTimer.init {}).start_focus 0).timer.update 1500 0).1.time_remaining
      = 300) ∧
    ((((PomodoroTimer.init {}).start_focus 0).timer.update 1500 0).1.state
      = TimerState.SHORT_BREAK) ∧
    max 0 (pyInt ((((PomodoroTimer.init {}).start_focus 0).timer.getCurrentDuration :
        ℚ) - (1500 - ((PomodoroTimer.init {}).start_focus 0).timer.session_start_time)))
      = 0 := by
  refine ⟨?_, ?_, ?_, ?_⟩ <;>
    norm_num +decide [PomodoroTimer.init, PomodoroTimer.start_focus,
      PomodoroTimer.update, PomodoroTimer.getCurrentDuration, PomodoroTimer.reminderStep,
      PomodoroTimer.handleTimerComplete, PomodoroTimer.start_break, pyInt]

/-- Claim C1 (amended): update() is a no-op while PAUSED, so time_remaining
is frozen no matter how far the wall clock advances. In FOCUS, SHORT_BREAK or
LONG_BREAK, when the recomputed value max(0, int(duration - (now -
session_start_time))) is positive, time_remaining equals it after update().
When that value is 0 the completion handler also runs in the same call: a
break state transitions to IDLE with time_remaining 0 as the formula says,
but FOCUS immediately starts the next break, leaving time_remaining equal to
that break duration (long when the incremented cycle count reaches the
threshold, else short) instead of 0. -/
theorem C1_update_formula_amended (t : PomodoroTimer) (now : ℚ) (choice : Nat) :
    (t.state = TimerState.PAUSED → t.update now choice = (t, [])) ∧
    ((t.state = TimerState.FOCUS ∨ t.state = TimerState.SHORT_BREAK ∨
        t.state = TimerState.LONG_BREAK) →
      (0 < max 0 (pyInt ((t.getCurrentDuration : ℚ) - (now - t.session_start_time))) →
        (t.update now choice).1.time_remaining =
          max 0 (pyInt ((t.getCurrentDuration : ℚ) - (now - t.session_start_time)))) ∧
      (max 0 (pyInt ((t.getCurrentDuration : ℚ) - (now - t.session_start_time))) = 0 →
        ((t.state = TimerState.SHORT_BREAK ∨ t.state = TimerState.LONG_BREAK) →
          (t.update now choice).1.time_remaining = 0 ∧
          (t.update now choice).1.state = TimerState.IDLE) ∧
        (t.state = TimerState.FOCUS →
          (t.update now choice).1.state ≠ TimerState.FOCUS ∧
          (t.update now choice).1.time_remaining =
            (if t.settings.pomodoros_until_long_break ≤ t.pomodoros_in_cycle + 1 then
              t.settings.long_break_duration else t.settings.short_break_duration)))) := by
  constructor
  · intro h
    simp [PomodoroTimer.update, h]
  · intro hs
    have hnp : ¬ t.state = TimerState.PAUSED := by
      rcases hs with h | h | h <;> simp [h]
    set r : Int := max 0 (pyInt ((t.getCurrentDuration : ℚ) - (now - t.session_start_time)))
      with hr
    set t1 : PomodoroTimer := { t with time_remaining := r } with ht1
    have hup : t.update now choice =
        (if (t1.reminderStep now).1.time_remaining ≤ 0 then
          (((t1.reminderStep now).1.handleTimerComplete now choice).1,
            (t1.reminderStep now).2 ++
              ((t1.reminderStep now).1.handleTimerComplete now choice).2)
        else ((t1.reminderStep now).1, (t1.reminderStep now).2)) := by
      simp only [PomodoroTimer.update, hnp, if_false, hs, if_true, ← hr, ← ht1]
    have hf := reminderStep_fields t1 now
    constructor
    · intro hpos
      rw [hup, if_neg (by rw [hf.1]; simp only [ht1]; omega)]
      rw [hf.1]
    · intro hzero
      have hle : (t1.reminderStep now).1.time_remaining ≤ 0 := by
        rw [hf.1]; simp only [ht1]; omega
      constructor
      · intro hb
        have hbs : (t1.reminderStep now).1.state = TimerState.SHORT_BREAK ∨
            (t1.reminderStep now).1.state = TimerState.LONG_BREAK := by
          rw [hf.2.1]
          simpa [ht1] using hb
        have hh := handleTimerComplete_break ((t1.reminderStep now).1) now choice hbs
        rw [hup, if_pos hle]
        refine ⟨?_, hh.1⟩
        simp only [hh.2, hf.1, ht1]
        omega
      · intro hb
        have hbs : (t1.reminderStep now).1.state = TimerState.FOCUS := by
          rw [hf.2.1]; simpa [ht1] using hb
        have hh := handleTimerComplete_focus ((t1.reminderStep now).1) now choice hbs
        rw [hup, if_pos hle]
        constructor
        · rw [hh.1, hf.2.2.1, hf.2.2.2.1]
          simp only [ht1]
          split <;> simp
        · rw [hh.2, hf.2.2.1, hf.2.2.2.1]

/-- Witness for C1 (amended): a paused timer is frozen by update(), and a
running focus session ten seconds in recomputes time_remaining by the
formula. -/
theorem C1_update_formula_amended_witness :
    ((((PomodoroTimer.init {}).start_focus 0).timer.pause 3).timer.update 5 0) =
      ((((PomodoroTimer.init {}).start_focus 0).timer.pause 3).timer, []) ∧
    (((PomodoroTimer.init {}).start_focus 0).timer.update 10 0).1.time_remaining =
      max 0 (pyInt ((((PomodoroTimer.init {}).start_focus 0).timer.getCurrentDuration :
        ℚ) - (10 - ((PomodoroTimer.init {}).start_focus 0).timer.session_start_time))) :=
  ⟨(C1_update_formula_amended (((PomodoroTimer.init {}).start_focus 0).timer.pause
        3).timer 5 0).1
      (by norm_num [PomodoroTimer.init, PomodoroTimer.start_focus, PomodoroTimer.pause]),
    ((C1_update_formula_amended ((PomodoroTimer.init {}).start_focus 0).timer 10 0).2
      (Or.inl (by norm_num [PomodoroTimer.init, PomodoroTimer.start_focus]))).1
      (by norm_num [PomodoroTimer.init, PomodoroTimer.start_focus,
        PomodoroTimer.getCurrentDuration, pyInt])⟩

/-- Claim C10: stop() from any non-IDLE state succeeds and modifies only
state, time_remaining and the break activity; the cycle and total counters,
previous_state, the settings and the listener registry are untouched, so a
focus session started after stop() continues the long-break cycle count of
the stopped run. -/
theorem C10_stop_frame (t : PomodoroTimer) (h : t.state ≠ TimerState.IDLE) :
    t.stop.ok = true ∧
    t.stop.timer.state = TimerState.IDLE ∧
    t.stop.timer.time_remaining = 0 ∧
    t.stop.timer.current_break_activity = none ∧
    t.stop.timer.pomodoros_in_cycle = t.pomodoros_in_cycle ∧
    t.stop.timer.total_pomodoros = t.total_pomodoros ∧
    t.stop.timer.previous_state = t.previous_state ∧
    t.stop.timer.settings = t.settings ∧
    t.stop.timer.session_start_time = t.session_start_time ∧
    t.stop.timer.pause_time = t.pause_time ∧
    t.stop.timer.last_reminder_time = t.last_reminder_time ∧
    t.stop.timer.event_listeners = t.event_listeners ∧
    (∀ p : CycleParams, (focusBreakCycle t.stop.timer p).pomodoros_in_cycle =
      (if t.pomodoros_in_cycle + 1 ≥ t.settings.pomodoros_until_long_break then 0
        else t.pomodoros_in_cycle + 1)) := by
  refine ⟨?_, ?_, ?_, ?_, ?_, ?_, ?_, ?_, ?_, ?_, ?_, ?_, ?_⟩ <;>
    simp [PomodoroTimer.stop, h, focusBreakCycle, PomodoroTimer.start_focus,
      PomodoroTimer.start_break]
  intro p
  split <;> simp

/-- Witness for C10 at a running focus timer. -/
theorem C10_stop_frame_witness :
    (((PomodoroTimer.init {}).start_focus 0).timer.stop).ok = true ∧
    (((PomodoroTimer.init {}).start_focus 0).timer.stop).timer.total_pomodoros =
      ((PomodoroTimer.init {}).start_focus 0).timer.total_pomodoros :=
  ⟨(C10_stop_frame (((PomodoroTimer.init {}).start_focus 0).timer)
      (by simp [PomodoroTimer.init, PomodoroTimer.start_focus])).1,
    (C10_stop_frame (((PomodoroTimer.init {}).start_focus 0).timer)
      (by simp [PomodoroTimer.init, PomodoroTimer.start_focus])).2.2.2.2.2.1⟩

/-- Claim C6: a gesture with loop=true never reports complete, at any elapsed
time including exact multiples of its duration, and the completion check in
update() never ends it: the promotion step leaves it current with the queue
untouched, so only start_movement or stop_movement can end it. -/
theorem C6_looping_never_complete (c : MovementState) (m : MovementManager)
    (now : ℚ) (hl : c.loop = true) :
    c.is_complete now = false ∧
    (m.current_movement = some c →
      (m.stepQueue now).current_movement = some c ∧
      (m.stepQueue now).queued_movements = m.queued_movements) := by
  constructor
  · simp [MovementState.is_complete, hl]
  · intro hc
    simp [MovementManager.stepQueue, hc, MovementState.is_complete, hl]

/-- Helper: one focus-then-break cycle from a resting state increments the
counters first and selects the break on the incremented cycle count. -/
theorem cycle_step (t : PomodoroTimer) (p : CycleParams)
    (hs : t.state = TimerState.IDLE ∨ t.state = TimerState.SHORT_BREAK ∨
      t.state = TimerState.LONG_BREAK) :
    (focusBreakCycle t p).settings = t.settings ∧
    (focusBreakCycle t p).total_pomodoros = t.total_pomodoros + 1 ∧
    (t.pomodoros_in_cycle + 1 < t.settings.pomodoros_until_long_break →
      (focusBreakCycle t p).state = TimerState.SHORT_BREAK ∧
      (focusBreakCycle t p).pomodoros_in_cycle = t.pomodoros_in_cycle + 1 ∧
      (focusBreakCycle t p).time_remaining = t.settings.short_break_duration) ∧
    (t.settings.pomodoros_until_long_break ≤ t.pomodoros_in_cycle + 1 →
      (focusBreakCycle t p).state = TimerState.LONG_BREAK ∧
      (focusBreakCycle t p).pomodoros_in_cycle = 0 ∧
      (focusBreakCycle t p).time_remaining = t.settings.long_break_duration) := by
  have hf : (t.start_focus p.focus_time).timer =
      { t with
        state := TimerState.FOCUS
        time_remaining := t.settings.focus_duration
        session_start_time := p.focus_time
        last_reminder_time := p.focus_time } := by
    simp only [PomodoroTimer.start_focus, hs, if_true]
  unfold focusBreakCycle
  rw [hf]
  simp +decide only [PomodoroTimer.start_break, ge_iff_le, if_true]
  refine ⟨?_, ?_, ?_, ?_⟩
  · split <;> simp
  · split <;> simp
  · intro hlt
    rw [if_neg (by simp; omega)]
    exact ⟨rfl, rfl, rfl⟩
  · intro hge
    rw [if_pos (by simp; omega)]
    simp

/-- Helper: a run of cycles that stays below the long-break threshold only
produces short breaks, adding its length to both counters. -/
theorem runCycles_props :
    ∀ (ps : List CycleParams) (t : PomodoroTimer),
      (t.state = TimerState.IDLE ∨ t.state = TimerState.SHORT_BREAK) →
      t.pomodoros_in_cycle + (ps.length : Int) < t.settings.pomodoros_until_long_break →
      (runCycles t ps).settings = t.settings ∧
      (runCycles t ps).pomodoros_in_cycle = t.pomodoros_in_cycle + (ps.length : Int) ∧
      (runCycles t ps).total_pomodoros = t.total_pomodoros + (ps.length : Int) ∧
      (ps = [] → runCycles t ps = t) ∧
      (ps ≠ [] → (runCycles t ps).state = TimerState.SHORT_BREAK ∧
        (runCycles t ps).time_remaining = t.settings.short_break_duration) := by
  intro ps
  induction ps with
  | nil =>
    intro t hs hlt
    simp [runCycles]
  | cons p ps ih =>
    intro t hs hlt
    simp only [List.length_cons] at hlt ⊢
    have hs3 : t.state = TimerState.IDLE ∨ t.state = TimerState.SHORT_BREAK ∨
        t.state = TimerState.LONG_BREAK := by
      rcases hs with h | h
      · exact Or.inl h
      · exact Or.inr (Or.inl h)
    have hstep := cycle_step t p hs3
    have hlt1 : t.pomodoros_in_cycle + 1 < t.settings.pomodoros_until_long_break := by
      push_cast at hlt ⊢
      omega
    have hshort := hstep.2.2.1 hlt1
    have hrun : runCycles t (p :: ps) = runCycles (focusBreakCycle t p) ps := rfl
    have ihp := ih (focusBreakCycle t p) (Or.inr hshort.1)
      (by rw [hshort.2.1, hstep.1]; push_cast at hlt ⊢; omega)
    rw [hrun]
    refine ⟨by rw [ihp.1, hstep.1], ?_, ?_, by simp, ?_⟩
    · rw [ihp.2.1, hshort.2.1]; push_cast; ring
    · rw [ihp.2.2.1, hstep.2.1]; push_cast; ring
    · intro _
      rcases Decidable.em (ps = []) with he | he
      · subst he
        refine ⟨?_, ?_⟩
        · rw [ihp.2.2.2.1 rfl]; exact hshort.1
        · rw [ihp.2.2.2.1 rfl, hshort.2.2]
      · have := ihp.2.2.2.2 he
        exact ⟨this.1, by rw [this.2, hstep.1]⟩

/-- Claim C3: from a fresh timer, over N = pomodoros_until_long_break
consecutive focus-then-break cycles (start_break with force_long=false, no
skips), every one of the first N-1 breaks is SHORT_BREAK with the cycle
counter equal to the number of completed cycles, and the Nth start_break
selects LONG_BREAK with time_remaining = long_break_duration and resets the
cycle counter to 0, the total counter having reached N. start_break always
increments both counters first and selects the type on the incremented
count. -/
theorem C3_cycle_counting (s : PomodoroSettings) (ps : List CycleParams) (q : CycleParams)
    (hlen : (ps.length : Int) + 1 = s.pomodoros_until_long_break) :
    (∀ i : Nat, 1 ≤ i → i ≤ ps.length →
      (runCycles (PomodoroTimer.init s) (ps.take i)).state = TimerState.SHORT_BREAK ∧
      (runCycles (PomodoroTimer.init s) (ps.take i)).pomodoros_in_cycle = (i : Int) ∧
      (runCycles (PomodoroTimer.init s) (ps.take i)).time_remaining =
        s.short_break_duration) ∧
    (focusBreakCycle (runCycles (PomodoroTimer.init s) ps) q).state =
      TimerState.LONG_BREAK ∧
    (focusBreakCycle (runCycles (PomodoroTimer.init s) ps) q).time_remaining =
      s.long_break_duration ∧
    (focusBreakCycle (runCycles (PomodoroTimer.init s) ps) q).pomodoros_in_cycle = 0 ∧
    (focusBreakCycle (runCycles (PomodoroTimer.init s) ps) q).total_pomodoros =
      s.pomodoros_until_long_break ∧
    (∀ (t : PomodoroTimer) (now : ℚ) (c : Nat), t.state = TimerState.FOCUS →
      (t.start_break false now c).timer.total_pomodoros = t.total_pomodoros + 1 ∧
      ((t.start_break false now c).timer.state = TimerState.LONG_BREAK ↔
        t.settings.pomodoros_until_long_break ≤ t.pomodoros_in_cycle + 1)) := by
  have hinit_state : (PomodoroTimer.init s).state = TimerState.IDLE := rfl
  have hinit_cycle : (PomodoroTimer.init s).pomodoros_in_cycle = 0 := rfl
  have hinit_total : (PomodoroTimer.init s).total_pomodoros = 0 := rfl
  have hinit_settings : (PomodoroTimer.init s).settings = s := rfl
  refine ⟨?_, ?_⟩
  · intro i h1 h2
    have hr := runCycles_props (ps.take i) (PomodoroTimer.init s) (Or.inl hinit_state)
      (by
        rw [hinit_cycle, hinit_settings, List.length_take]
        have : min i ps.length = i := by omega
        rw [this]
        omega)
    have hlt : (ps.take i).length = i := by
      simp [List.length_take]
      omega
    have hne : ps.take i ≠ [] := by
      intro hc
      rw [hc] at hlt
      simp at hlt
      omega
    refine ⟨(hr.2.2.2.2 hne).1, ?_, ?_⟩
    · rw [hr.2.1, hinit_cycle, hlt]
      ring
    · rw [(hr.2.2.2.2 hne).2, hinit_settings]
  · have hr := runCycles_props ps (PomodoroTimer.init s) (Or.inl hinit_state)
      (by rw [hinit_cycle, hinit_settings]; omega)
    have hs3 : (runCycles (PomodoroTimer.init s) ps).state = TimerState.IDLE ∨
        (runCycles (PomodoroTimer.init s) ps).state = TimerState.SHORT_BREAK ∨
        (runCycles (PomodoroTimer.init s) ps).state = TimerState.LONG_BREAK := by
      rcases Decidable.em (ps = []) with he | he
      · rw [hr.2.2.2.1 he]
        exact Or.inl hinit_state
      · exact Or.inr (Or.inl (hr.2.2.2.2 he).1)
    have hstep := cycle_step (runCycles (PomodoroTimer.init s) ps) q hs3
    have hge : (runCycles (PomodoroTimer.init s) ps).settings.pomodoros_until_long_break ≤
        (runCycles (PomodoroTimer.init s) ps).pomodoros_in_cycle + 1 := by
      rw [hr.1, hinit_settings, hr.2.1, hinit_cycle]
      omega
    have hlong := hstep.2.2.2 hge
    refine ⟨hlong.1, ?_, hlong.2.1, ?_, ?_⟩
    · rw [hlong.2.2, hr.1, hinit_settings]
    · rw [hstep.2.1, hr.2.2.1, hinit_total]
      omega
    · intro t now c ht
      constructor
      · simp only [PomodoroTimer.start_break, ht, if_true]
        split <;> simp
      · simp +decide only [PomodoroTimer.start_break, ht, if_true, ge_iff_le]
        constructor
        · intro hb
          by_contra hnb
          rw [if_neg (by simp; omega)] at hb
          exact absurd hb (by simp)
        · intro hb
          rw [if_pos (by simp; omega)]

/-- Witness for C3 at the default settings (threshold 4): three cycles of
short breaks, then the fourth break is long with the cycle counter reset. -/
theorem C3_cycle_counting_witness :
    (runCycles (PomodoroTimer.init {})
      (List.take 1 [(⟨0, 0, 0⟩ : CycleParams), ⟨0, 0, 0⟩, ⟨0, 0, 0⟩])).state =
      TimerState.SHORT_BREAK ∧
    (focusBreakCycle (runCycles (PomodoroTimer.init {})
      [(⟨0, 0, 0⟩ : CycleParams), ⟨0, 0, 0⟩, ⟨0, 0, 0⟩]) ⟨0, 0, 0⟩).state =
      TimerState.LONG_BREAK ∧
    (focusBreakCycle (runCycles (PomodoroTimer.init {})
      [(⟨0, 0, 0⟩ : CycleParams), ⟨0, 0, 0⟩, ⟨0, 0, 0⟩]) ⟨0, 0, 0⟩).pomodoros_in_cycle
      = 0 ∧
    (focusBreakCycle (runCycles (PomodoroTimer.init {})
      [(⟨0, 0, 0⟩ : CycleParams), ⟨0, 0, 0⟩, ⟨0, 0, 0⟩]) ⟨0, 0, 0⟩).total_pomodoros
      = ({} : PomodoroSettings).pomodoros_until_long_break := by
  have h := C3_cycle_counting {} [⟨0, 0, 0⟩, ⟨0, 0, 0⟩, ⟨0, 0, 0⟩] ⟨0, 0, 0⟩
    (by norm_num)
  exact ⟨(h.1 1 (by norm_num) (by norm_num)).1, h.2.1, h.2.2.2.1, h.2.2.2.2.1⟩

/-- Helper: an update whose completion check fails leaves the manager as is. -/
theorem stepQueue_not_complete (m : MovementManager) (c : MovementState) (t1 : ℚ)
    (hc : m.current_movement = some c) (h1 : c.is_complete t1 = false) :
    m.stepQueue t1 = m := by
  simp [MovementManager.stepQueue, hc, h1]

/-- Helper: iterated updates before the current gesture completes change
nothing. -/
theorem foldl_stepQueue_id (m : MovementManager) (c : MovementState)
    (hc : m.current_movement = some c) :
    ∀ ts : List ℚ, (∀ x ∈ ts, c.is_complete x = false) →
      ts.foldl (fun s x => s.stepQueue x) m = m := by
  intro ts
  induction ts with
  | nil => intro _; rfl
  | cons x xs ih =>
    intro hx
    rw [List.foldl_cons, stepQueue_not_complete m c x hc (hx x (by simp))]
    exact ih fun y hy => hx y (by simp [hy])

/-- Claim C5: FIFO ordering of the gesture queue. With C current (loop=false)
and [A, B] queued, an update before C completes changes nothing (and a whole
run of such updates changes nothing), the first update at which C is complete
promotes A in that same call, stamping its start_time with that instant and
leaving [B] queued; from then on updates within duration d1 of the promotion
instant change nothing, and the first update at least d1 after it promotes B,
emptying the queue. No gesture is skipped or played twice. -/
theorem C5_gesture_queue_fifo (m : MovementManager) (c a b : MovementState)
    (hc : m.current_movement = some c) (hq : m.queued_movements = [a, b])
    (hcl : c.loop = false) (hal : a.loop = false) :
    (∀ t1, c.is_complete t1 = false → m.stepQueue t1 = m) ∧
    (∀ ts : List ℚ, (∀ x ∈ ts, c.is_complete x = false) →
      ts.foldl (fun s x => s.stepQueue x) m = m) ∧
    (∀ t1, c.is_complete t1 = true →
      (m.stepQueue t1).current_movement = some ({ a with start_time := t1 }) ∧
      (m.stepQueue t1).queued_movements = [b]) ∧
    (∀ s1 t2, t2 - s1 < a.duration →
      MovementManager.stepQueue
        { m with
          current_movement := some ({ a with start_time := s1 })
          queued_movements := [b] } t2 =
        { m with
          current_movement := some ({ a with start_time := s1 })
          queued_movements := [b] }) ∧
    (∀ s1 t2, a.duration ≤ t2 - s1 →
      (MovementManager.stepQueue
        { m with
          current_movement := some ({ a with start_time := s1 })
          queued_movements := [b] } t2).current_movement =
        some ({ b with start_time := t2 }) ∧
      (MovementManager.stepQueue
        { m with
          current_movement := some ({ a with start_time := s1 })
          queued_movements := [b] } t2).queued_movements = []) := by
  refine ⟨?_, ?_, ?_, ?_, ?_⟩
  · intro t1 h1
    exact stepQueue_not_complete m c t1 hc h1
  · exact foldl_stepQueue_id m c hc
  · intro t1 h1
    simp [MovementManager.stepQueue, hc, h1, hq]
  · intro s1 t2 hlt
    have hnc : MovementState.is_complete { a with start_time := s1 } t2 = false := by
      simp [MovementState.is_complete, hal, MovementState.elapsed]
      linarith
    simp [MovementManager.stepQueue, hnc]
  · intro s1 t2 hge
    have hcp : MovementState.is_complete { a with start_time := s1 } t2 = true := by
      simp [MovementState.is_complete, hal, MovementState.elapsed]
      linarith
    simp [MovementManager.stepQueue, hcp]

/-- Witness for C5: a concrete manager with a one-second current gesture and
two queued gestures; the update at time 1 promotes the first queued gesture. -/
theorem C5_gesture_queue_fifo_witness :
    ((MovementManager.init 0).start_movement MovementType.NOD_YES 0 1 false
        |>.queue_movement MovementType.NOD_NO 2 false
        |>.queue_movement MovementType.CELEBRATION 3 false
        |>.stepQueue 1).current_movement =
      some (⟨MovementType.NOD_NO, 1, 2, false, none⟩ : MovementState) ∧
    ((MovementManager.init 0).start_movement MovementType.NOD_YES 0 1 false
        |>.queue_movement MovementType.NOD_NO 2 false
        |>.queue_movement MovementType.CELEBRATION 3 false
        |>.stepQueue 1).queued_movements =
      [(⟨MovementType.CELEBRATION, 0, 3, false, none⟩ : MovementState)] := by
  have h := C5_gesture_queue_fifo
    ((MovementManager.init 0).start_movement MovementType.NOD_YES 0 1 false
      |>.queue_movement MovementType.NOD_NO 2 false
      |>.queue_movement MovementType.CELEBRATION 3 false)
    ⟨MovementType.NOD_YES, 0, 1, false, none⟩
    ⟨MovementType.NOD_NO, 0, 2, false, none⟩
    ⟨MovementType.CELEBRATION, 0, 3, false, none⟩
    rfl rfl rfl rfl
  have h2 := h.2.2.1 1 (by
    norm_num [MovementState.is_complete, MovementState.elapsed,
      MovementManager.init, MovementManager.start_movement,
      MovementManager.queue_movement])
  exact h2

/-- Helper: the queue-promotion step neither reads nor writes the speech
offset field. -/
theorem stepQueue_set_speech_offsets (m : MovementManager) (o : SpeechOffsets)
    (now : ℚ) :
    (m.set_speech_offsets o).stepQueue now = (m.stepQueue now).set_speech_offsets o := by
  rcases m with ⟨cm, qm, bt, so, lis⟩
  cases cm with
  | none => rfl
  | some c =>
    simp only [MovementManager.set_speech_offsets, MovementManager.stepQueue]
    split
    · cases qm <;> rfl
    · rfl

/-- Helper: the per-gesture pose dispatch never reads the speech offsets. -/
theorem basePose_set_speech_offsets (T : Trig) (m : MovementManager)
    (o : SpeechOffsets) (now : ℚ) :
    (m.set_speech_offsets o).basePose T now = m.basePose T now := by
  rcases m with ⟨cm, qm, bt, so, lis⟩
  rfl

/-- Claim C7: with the stored offset tuple exactly (0,0,0,0,0,0) the
speech-offset layer returns the base pose unchanged, and for every offset
value the layer touches only the head pose: the antenna positions and body
yaw returned by update() are the same as with any other stored offsets. -/
theorem C7_zero_offset_identity (T : Trig) (base : Pose) (m : MovementManager)
    (now : ℚ) (o : SpeechOffsets) :
    applySpeechOffsets T zeroOffsets base = base ∧
    (MovementManager.update T (m.set_speech_offsets o) now).2.antennas =
      (MovementManager.update T m now).2.antennas ∧
    (MovementManager.update T (m.set_speech_offsets o) now).2.body_yaw =
      (MovementManager.update T m now).2.body_yaw ∧
    (MovementManager.update T (m.set_speech_offsets o) now).1.current_movement =
      (MovementManager.update T m now).1.current_movement := by
  refine ⟨?_, ?_, ?_, ?_⟩
  · simp [applySpeechOffsets, zeroOffsets]
  · simp [MovementManager.update, stepQueue_set_speech_offsets,
      basePose_set_speech_offsets]
  · simp [MovementManager.update, stepQueue_set_speech_offsets,
      basePose_set_speech_offsets]
  · simp only [MovementManager.update, stepQueue_set_speech_offsets]
    simp [MovementManager.set_speech_offsets]

/-- Witness for C6: a looping two-second breathing gesture observed at time 4,
an exact multiple of its duration, with an empty-queue manager holding it. -/
theorem C6_looping_never_complete_witness :
    MovementState.is_complete
      { movement_type := MovementType.BREATHING, start_time := 0, duration := 2,
        loop := true } 4 = false :=
  (C6_looping_never_complete
    { movement_type := MovementType.BREATHING, start_time := 0, duration := 2,
      loop := true }
    (MovementManager.init 0) 4 rfl).1

/-- Helper: feeding chunks stamps each with the generation current at enqueue
time and leaves the generation unchanged. -/
theorem foldl_feedAudio {σ : Type} (cs : List AudioChunk) :
    ∀ w : WobblerState σ,
      (cs.foldl WobblerState.feedAudio w).generation = w.generation ∧
      (cs.foldl WobblerState.feedAudio w).audio_queue =
        w.audio_queue ++ cs.map (fun c => (w.generation, c)) := by
  induction cs with
  | nil =>
    intro w
    simp
  | cons c cs ih =>
    intro w
    simp only [List.foldl_cons, List.map_cons]
    have h := ih (w.feedAudio c)
    refine ⟨by rw [h.1]; rfl, ?_⟩
    rw [h.2]
    simp [WobblerState.feedAudio]

/-- Helper: a queue whose stamps all differ from the current generation is
drained without applying anything. -/
theorem drainLoop_stale {σ ε : Type}
    (feed : σ → AudioChunk → Except ε (σ × List SwaySample)) (gen : Nat) :
    ∀ (q : List (Nat × AudioChunk)) (s : σ), (∀ x ∈ q, x.1 ≠ gen) →
      drainLoop feed gen q s = ([], s, [], none) := by
  intro q
  induction q with
  | nil =>
    intro s _
    rfl
  | cons x q ih =>
    intro s h
    obtain ⟨g, c⟩ := x
    have hg : g ≠ gen := h (g, c) (by simp)
    simp only [drainLoop, hg, ne_eq, not_false_eq_true, if_true]
    exact ih s fun y hy => h y (by simp [hy])

/-- Helper: with a processing function that never fails, the worker loop
consumes the entire queue and signals no error. -/
theorem drainLoop_total {σ ε : Type} (feedOk : σ → AudioChunk → σ × List SwaySample)
    (gen : Nat) :
    ∀ (q : List (Nat × AudioChunk)) (s : σ),
      (drainLoop (fun s1 c1 => (Except.ok (feedOk s1 c1) : Except ε _)) gen q s).1 = [] ∧
      (drainLoop (fun s1 c1 => (Except.ok (feedOk s1 c1) : Except ε _)) gen q s).2.2.2 =
        none := by
  intro q
  induction q with
  | nil =>
    intro s
    exact ⟨rfl, rfl⟩
  | cons x q ih =>
    intro s
    obtain ⟨g, c⟩ := x
    by_cases hg : g = gen
    · subst hg
      have h := ih (feedOk s c).1
      simp only [drainLoop, ne_eq, not_true_eq_false, if_false]
      simp [h.1, h.2]
    · simp only [drainLoop, hg, ne_eq, not_false_eq_true, if_true]
      exact ih s

/-- Claim C8: after chunks are enqueued (each stamped with the generation
current at enqueue time) and reset() is then called, no chunk enqueued
before the reset can produce an applied offset: reset() increments the
generation, empties the queue and immediately applies the zero offset tuple;
draining after the reset applies nothing, and even a queue of items stamped
with the old generation would be dropped one by one by the stamp check. -/
theorem C8_generation_invalidation {σ ε : Type} (w : WobblerState σ) (cs : List AudioChunk)
    (swayReset : σ → σ) (feed : σ → AudioChunk → Except ε (σ × List SwaySample))
    (hstamps : ∀ x ∈ w.audio_queue, x.1 ≤ w.generation) :
    (∀ x ∈ (cs.foldl WobblerState.feedAudio w).audio_queue, x.1 ≤ w.generation) ∧
    ((cs.foldl WobblerState.feedAudio w).reset swayReset).2 = [zeroOffsets] ∧
    ((cs.foldl WobblerState.feedAudio w).reset swayReset).1.generation =
      w.generation + 1 ∧
    ((cs.foldl WobblerState.feedAudio w).reset swayReset).1.audio_queue = [] ∧
    (((cs.foldl WobblerState.feedAudio w).reset swayReset).1.drain feed =
      (((cs.foldl WobblerState.feedAudio w).reset swayReset).1, [], none)) ∧
    (∀ q : List (Nat × AudioChunk), (∀ x ∈ q, x.1 ≤ w.generation) →
      WobblerState.drain feed
        { ((cs.foldl WobblerState.feedAudio w).reset swayReset).1 with
          audio_queue := q } =
        ({ ((cs.foldl WobblerState.feedAudio w).reset swayReset).1 with
          audio_queue := [] }, [], none)) := by
  have hfold := foldl_feedAudio cs w
  refine ⟨?_, rfl, ?_, ?_, ?_, ?_⟩
  · intro x hx
    rw [hfold.2] at hx
    rcases List.mem_append.mp hx with hx | hx
    · exact hstamps x hx
    · rcases List.mem_map.mp hx with ⟨c, _, rfl⟩
      exact le_refl _
  · simp [WobblerState.reset, hfold.1]
  · simp [WobblerState.reset]
  · simp [WobblerState.drain, WobblerState.reset, drainLoop]
  · intro q hq
    have hgen : ({ ((cs.foldl WobblerState.feedAudio w).reset swayReset).1 with
        audio_queue := q } : WobblerState σ).generation = w.generation + 1 := by
      simp [WobblerState.reset, hfold.1]
    have hstale := drainLoop_stale feed
      (({ ((cs.foldl WobblerState.feedAudio w).reset swayReset).1 with
        audio_queue := q } : WobblerState σ).generation) q
      (({ ((cs.foldl WobblerState.feedAudio w).reset swayReset).1 with
        audio_queue := q } : WobblerState σ).sway)
      (by
        rw [hgen]
        intro x hx
        have := hq x hx
        omega)
    simp only [WobblerState.drain, hstale]

/-- Claim C9 counterexample: a sway feed that raises on the empty chunk and
yields an offset sample on any other chunk, with a queue holding the failing
chunk followed by a fresh well-formed one. The worker loop stops at the
failure: no offset is applied, the error escapes, and the well-formed chunk
is left unprocessed, contradicting the claim that the loop continues to the
next chunk. -/
theorem C9_counterexample :
    drainLoop (fun (s : Unit) (c : AudioChunk) =>
        if c = ([] : AudioChunk) then (Except.error () : Except Unit (Unit × List SwaySample))
        else Except.ok (s, [⟨1, 0, 0, 0, 0, 0⟩]))
      0 [(0, ([] : AudioChunk)), (0, ([1] : AudioChunk))] () =
    ([(0, ([1] : AudioChunk))], (), [], some ()) := by
  rfl

/-- Claim C9 (amended): the worker loop tolerates only stale-generation
chunks and empty-queue timeouts; there is no handler around chunk
processing, so an exception raised while processing a fresh chunk terminates
the loop at once, applying no offsets from that chunk and leaving all later
queued chunks unprocessed. When processing never raises, the loop drains
every chunk and signals no error; whether malformed or short chunks raise at
all is decided inside the sway analyzer, which is absent from src/. -/
theorem C9_exception_exits_amended {σ ε : Type}
    (feed : σ → AudioChunk → Except ε (σ × List SwaySample))
    (feedOk : σ → AudioChunk → σ × List SwaySample)
    (gen g : Nat) (c : AudioChunk) (rest : List (Nat × AudioChunk)) (s : σ) (e : ε)
    (hg : g = gen) (hfail : feed s c = Except.error e) :
    drainLoop feed gen ((g, c) :: rest) s = (rest, s, [], some e) ∧
    (∀ (q : List (Nat × AudioChunk)) (s0 : σ),
      (drainLoop (fun s1 c1 => (Except.ok (feedOk s1 c1) : Except ε _)) gen q s0).1 = [] ∧
      (drainLoop (fun s1 c1 => (Except.ok (feedOk s1 c1) : Except ε _)) gen q s0).2.2.2 =
        none) := by
  constructor
  · subst hg
    simp only [drainLoop, ne_eq, not_true_eq_false, if_false, hfail]
  · intro q s0
    exact drainLoop_total feedOk gen q s0

/-- Witness for C9 (amended) at a concrete failing chunk followed by a fresh
and a stale chunk: both are left unprocessed when the loop exits. -/
theorem C9_exception_exits_amended_witness :
    drainLoop (fun (s : Unit) (c : AudioChunk) =>
        if c = ([] : AudioChunk) then (Except.error () : Except Unit (Unit × List SwaySample))
        else Except.ok (s, [⟨1, 0, 0, 0, 0, 0⟩]))
      5 [(5, ([] : AudioChunk)), (5, ([2] : AudioChunk)), (4, ([3] : AudioChunk))] () =
    ([(5, ([2] : AudioChunk)), (4, ([3] : AudioChunk))], (), [], some ()) :=
  (C9_exception_exits_amended
    (fun (s : Unit) (c : AudioChunk) =>
      if c = ([] : AudioChunk) then (Except.error () : Except Unit (Unit × List SwaySample))
      else Except.ok (s, [⟨1, 0, 0, 0, 0, 0⟩]))
    (fun s _ => (s, []))
    5 5 ([] : AudioChunk) [(5, ([2] : AudioChunk)), (4, ([3] : AudioChunk))] () ()
    rfl rfl).1

/-- Witness for C8: one chunk fed to a fresh analyzer whose processing would
produce a nonzero offset; after reset() the drain applies nothing. -/
theorem C8_generation_invalidation_witness :
    ((([([1] : AudioChunk)]).foldl WobblerState.feedAudio
        (⟨0, [], ()⟩ : WobblerState Unit)).reset id).2 = [zeroOffsets] ∧
    ((([([1] : AudioChunk)]).foldl WobblerState.feedAudio
        (⟨0, [], ()⟩ : WobblerState Unit)).reset id).1.audio_queue = [] ∧
    ((([([1] : AudioChunk)]).foldl WobblerState.feedAudio
        (⟨0, [], ()⟩ : WobblerState Unit)).reset id).1.drain
      (fun (s : Unit) (_ : AudioChunk) =>
        (Except.ok (s, [⟨1, 0, 0, 0, 0, 0⟩]) : Except Unit (Unit × List SwaySample))) =
      (((([([1] : AudioChunk)]).foldl WobblerState.feedAudio
        (⟨0, [], ()⟩ : WobblerState Unit)).reset id).1, [], none) := by
  have h := C8_generation_invalidation (⟨0, [], ()⟩ : WobblerState Unit) [([1] : AudioChunk)] id
    (fun (s : Unit) (_ : AudioChunk) =>
      (Except.ok (s, [⟨1, 0, 0, 0, 0, 0⟩]) : Except Unit (Unit × List SwaySample)))
    (by simp)
  exact ⟨h.2.1, h.2.2.2.1, h.2.2.2.2.1⟩
